import Mathlib

/-!
Shallow embedding of src/dotplot/__init__.py (class DotPlot) and proofs about it.

Modelling conventions:
* Python strings are lists of characters (Label); string length is list length.
* pandas DataFrames are triples (index labels, column labels, row-major cells);
  numeric values are rationals.
* Python exceptions are explicit PyError values.
* matplotlib is modelled only where its observable inputs matter to the claims:
  the scatter call records coordinates, sizes and the colour argument, and the
  colour bar records the two tick labels it displays.
-/

/-- Python string, as its list of characters. -/
abbrev Label := List Char

/-- One observation row of the tidy (long-form) input table, carrying the
values of the item_key, group_key, sizes_key and color_key columns. -/
structure TidyRow where
  item : Label
  group : Label
  size : ℚ
  color : ℚ
deriving DecidableEq

/-- pandas DataFrame: row labels, column labels, and the cell block (row major). -/
structure DataFrame where
  index : List Label
  columns : List Label
  values : List (List ℚ)
deriving DecidableEq

/-- DataFrame.shape: (number of rows, number of columns). -/
def DataFrame.shape (df : DataFrame) : Nat × Nat :=
  (df.index.length, df.columns.length)

/-- df.values.flatten() : numpy row-major flattening of the cell block. -/
def DataFrame.flatValues (df : DataFrame) : List ℚ :=
  df.values.flatten

/-- df.applymap(func=lambda x: x * size_factor) (line 99). -/
def DataFrame.applymapMul (df : DataFrame) (factor : ℚ) : DataFrame :=
  { df with values := df.values.map (fun row => row.map (fun x => x * factor)) }

/-- Python exceptions raised by the modelled code paths. -/
inductive PyError where
  | attributeError
  | valueError
deriving DecidableEq

/-- The DotPlot object state: size_data, color_data, height_item, width_item
(lines 30 to 32) and the derived resized_size_data, which stays unassigned
(none) until a render call writes it (line 99). -/
structure DotPlot where
  size_data : DataFrame
  color_data : Option DataFrame
  height_item : Nat
  width_item : Nat
  resized_size_data : Option DataFrame
deriving DecidableEq

/-- DotPlot.__init__ (lines 18 to 33).  The guard on line 28 is
`(df_color is not None) & (df_size.shape != df_color.shape)`: the bitwise
operator `&` evaluates both operands, so when df_color is None the attribute
access df_color.shape raises AttributeError before any comparison happens. -/
def DotPlot.init (df_size : DataFrame) (df_color : Option DataFrame) :
    Except PyError DotPlot :=
  match df_color with
  | none => .error .attributeError
  | some c =>
    if df_size.shape ≠ c.shape then .error .valueError
    else .ok { size_data := df_size, color_data := some c,
               height_item := df_size.shape.1, width_item := df_size.shape.2,
               resized_size_data := none }

/-- Python s.split(sep) on a character list: splits at every separator
occurrence, keeping empty pieces. -/
def pySplit (sep : Char) : List Char → List (List Char)
  | [] => [[]]
  | c :: cs =>
    if c == sep then [] :: pySplit sep cs
    else
      match pySplit sep cs with
      | [] => [[c]]
      | h :: t => (c :: h) :: t

/-- Python sep.join(parts) on character lists. -/
def joinSep (sep : Char) : List (List Char) → List Char
  | [] => []
  | [x] => x
  | x :: y :: t => x ++ sep :: joinSep sep (y :: t)

/-- Flattened pivot column label: the MultiIndex pair (value key, group label)
joined with an underscore separator by the join call on line 88. -/
def mangle (key g : Label) : Label :=
  joinSep '_' [key, g]

/-- Column rename of lines 92 to 93: split the flattened label at every
underscore, drop the first piece, rejoin the rest with underscores. -/
def recoverLabel (s : Label) : Label :=
  joinSep '_' ((pySplit '_' s).drop 1)

/-- Everything after the first occurrence of sep, empty when sep is absent.
This is not source code: it is the closed form of recoverLabel, proved below
(joinSep_drop_one_pySplit) and used to state what the rename does. -/
def afterFirstSep (sep : Char) : List Char → List Char
  | [] => []
  | c :: cs => if c == sep then cs else afterFirstSep sep cs

/-- Python s.startswith(pat), used by pandas str.startswith on the flattened
column labels (lines 90 to 91). -/
def pyStartsWith : Label → Label → Bool
  | _, [] => true
  | [], _ :: _ => false
  | c :: cs, p :: ps => c == p && pyStartsWith cs ps

/-- Group axis produced by DataFrame.pivot (line 81): the distinct group
labels of the table, sorted lexicographically (pandas sorts the level that
becomes the new columns when pivoting). -/
def groupAxis (rows : List TidyRow) : List Label :=
  List.insertionSort (· ≤ ·) ((rows.map (·.group)).dedup)

/-- The _original_item_order list: the full item column of the table, reversed
(lines 75 to 76).  It keeps one entry per source row, duplicates included, and
the frame is then reindexed by it (line 82), duplicating pivot rows. -/
def origItemOrder (rows : List TidyRow) : List Label :=
  (rows.map (·.item)).reverse

/-- Pivoted cell for (item, group) after fillna(0) (lines 81 and 89): the
field value of the row carrying this pair, 0 when the pair is absent. -/
def cellValue (rows : List TidyRow) (f : TidyRow → ℚ) (i g : Label) : ℚ :=
  match rows.find? (fun r => r.item == i && r.group == g) with
  | some r => f r
  | none => 0

/-- MultiIndex columns of the pivoted frame, value-key level first:
`values=[color_key, sizes_key]` puts the colour block before the sizes block
(line 81). -/
def multiCols (color_key sizes_key : Label) (groups : List Label) :
    List (Label × Label) :=
  groups.map (fun g => (color_key, g)) ++ groups.map (fun g => (sizes_key, g))

/-- Sub-frame selected by `data_frame.columns.str.startswith(key)` after the
labels were flattened with an underscore, then renamed by recoverLabel
(lines 88 to 93).  Cells carry the pivoted value of the block the selected
column came from, missing combinations already filled with 0 (line 89). -/
def subFrame (rows : List TidyRow) (color_key sizes_key key : Label) : DataFrame :=
  let cols := (multiCols color_key sizes_key (groupAxis rows)).filter
    (fun p => pyStartsWith (mangle p.1 p.2) key)
  { index := origItemOrder rows,
    columns := cols.map (fun p => recoverLabel (mangle p.1 p.2)),
    values := (origItemOrder rows).map (fun i =>
      cols.map (fun p =>
        cellValue rows (if p.1 == color_key then TidyRow.color else TidyRow.size) i p.2)) }

/-- The color_df built by parse_from_tidy_data (lines 90 and 92). -/
def colorDf (rows : List TidyRow) (color_key sizes_key : Label) : DataFrame :=
  subFrame rows color_key sizes_key color_key

/-- The sizes_df built by parse_from_tidy_data (lines 91 and 93). -/
def sizesDf (rows : List TidyRow) (color_key sizes_key : Label) : DataFrame :=
  subFrame rows color_key sizes_key sizes_key

/-- DotPlot.parse_from_tidy_data (lines 52 to 94) with selected_item,
selected_group, sizes_func and color_func left at their None defaults.
DataFrame.pivot raises ValueError when the table holds two rows for the same
(item, group) pair, hence the Nodup guard.  Line 94 returns
`cls(color_df, sizes_df)`, that is DotPlot(df_size=color_df, df_color=sizes_df). -/
def parse_from_tidy_data (rows : List TidyRow) (color_key sizes_key : Label) :
    Except PyError DotPlot :=
  if (rows.map (fun r => (r.item, r.group))).Nodup then
    DotPlot.init (colorDf rows color_key sizes_key)
      (some (sizesDf rows color_key sizes_key))
  else .error .valueError

/-- X of __get_coordinates (line 97): `list(range(1, width+1)) * height`. -/
def coordinatesX (height width : Nat) : List Nat :=
  (List.replicate height (List.range' 1 width)).flatten

/-- Python sorted(...) on naturals (stable sort; on naturals the output is the
unique sorted permutation of the input). -/
def pySorted (l : List Nat) : List Nat :=
  List.insertionSort (· ≤ ·) l

/-- Y of __get_coordinates (line 98): `sorted(list(range(1, height+1)) * width)`. -/
def coordinatesY (height width : Nat) : List Nat :=
  pySorted ((List.replicate width (List.range' 1 height)).flatten)

/-- DotPlot.__get_coordinates (lines 96 to 100): returns the coordinate lists
and writes resized_size_data, the only mutation of the object. -/
def DotPlot.getCoordinates (dp : DotPlot) (size_factor : ℚ) :
    (List Nat × List Nat) × DotPlot :=
  ((coordinatesX dp.height_item dp.width_item,
    coordinatesY dp.height_item dp.width_item),
   { dp with resized_size_data := some (dp.size_data.applymapMul size_factor) })

/-- The colour argument handed to ax.scatter: the constant colour string given
when color_data is None (line 105), or the flattened colour values (line 108). -/
inductive ScatterColor where
  | constRed
  | fromValues (vals : List ℚ)
deriving DecidableEq

/-- The PathCollection returned by ax.scatter, as its observable inputs. -/
structure Scatter where
  X : List Nat
  Y : List Nat
  sizes : List ℚ
  color : ScatterColor
deriving DecidableEq

/-- PathCollection.get_array(): the numeric colour array, none when the scatter
was drawn with a constant colour. -/
def Scatter.getArray (s : Scatter) : Option (List ℚ) :=
  match s.color with
  | .constRed => none
  | .fromValues v => some v

/-- DotPlot.__draw_dotplot (lines 102 to 119): draw the scatter and return it
with the updated object.  Axis limits, ticks and tick labels are cosmetic
matplotlib state not modelled here. -/
def DotPlot.drawDotplot (dp : DotPlot) (size_factor : ℚ) : Scatter × DotPlot :=
  let r := dp.getCoordinates size_factor
  let resized := match r.2.resized_size_data with
    | some d => d
    | none => dp.size_data    -- unreachable: __get_coordinates just assigned it
  match dp.color_data with
  | none =>
    ({ X := r.1.1, Y := r.1.2, sizes := resized.flatValues, color := .constRed }, r.2)
  | some c =>
    ({ X := r.1.1, Y := r.1.2, sizes := resized.flatValues,
       color := .fromValues c.flatValues }, r.2)

/-- Effective vmax of __draw_color_bar (lines 130 to 131): the given value, or
`math.ceil(sct.get_array().max())`.  get_array() is None for a constant colour
scatter, so the .max() attribute access raises AttributeError; numpy max of an
empty array also raises. -/
def cbarVmax (sct : Scatter) (vmax : Option ℚ) : Except PyError ℚ :=
  match vmax with
  | some v => .ok v
  | none =>
    match sct.getArray with
    | none => .error .attributeError
    | some arr =>
      match arr.max? with
      | none => .error .valueError
      | some m => .ok ((⌈m⌉ : ℤ) : ℚ)

/-- Effective vmin of __draw_color_bar (lines 132 to 133): the given value, or
`math.floor(sct.get_array().min())`, with the same failure modes as cbarVmax. -/
def cbarVmin (sct : Scatter) (vmin : Option ℚ) : Except PyError ℚ :=
  match vmin with
  | some v => .ok v
  | none =>
    match sct.getArray with
    | none => .error .attributeError
    | some arr =>
      match arr.min? with
      | none => .error .valueError
      | some m => .ok ((⌊m⌋ : ℤ) : ℚ)

/-- DotPlot.__draw_color_bar (lines 121 to 135): computes the pair of tick
labels [vmin, vmax] displayed at the colour bar extremes; vmax is resolved
before vmin, as in the source. -/
def drawColorBar (sct : Scatter) (vmin vmax : Option ℚ) : Except PyError (ℚ × ℚ) :=
  match cbarVmax sct vmax with
  | .error e => .error e
  | .ok vtop =>
    match cbarVmin sct vmin with
    | .error e => .error e
    | .ok vbot => .ok (vbot, vtop)

/-- Legend entry reduction of DotPlot.__draw_legend (lines 142 to 146): with
more than 3 entries keep the numpy fancy index [0, math.ceil(n / 2), -1]; for
a natural n, math.ceil(n / 2) equals (n + 1) / 2 in integer arithmetic. -/
def legendSelect (l : List ℚ) : List ℚ :=
  if 3 < l.length then
    [l.getD 0 0, l.getD ((l.length + 1) / 2) 0, l.getD (l.length - 1) 0]
  else l

/-- Class attribute DEFAULT_ITEM_HEIGHT = 0.3 (line 13). -/
def DotPlot.DEFAULT_ITEM_HEIGHT : ℚ := 0.3

/-- Class attribute DEFAULT_ITEM_WIDTH = 0.35 (line 14). -/
def DotPlot.DEFAULT_ITEM_WIDTH : ℚ := 0.35

/-- Class attribute DEFAULT_LEGENDS_WIDTH = 0.5 (line 15). -/
def DotPlot.DEFAULT_LEGENDS_WIDTH : ℚ := 0.5

/-- Class attribute MIN_FIGURE_HEIGHT = 3 (line 16). -/
def DotPlot.MIN_FIGURE_HEIGHT : ℚ := 3

/-- Maximum item label length, `size_data.index.map(len).max()` (line 36);
none on an empty index, where pandas yields NaN and math.ceil then raises. -/
def maxLabelLen (labels : List Label) : Option Nat :=
  (labels.map List.length).max?

/-- Figure size (width, height) computed by DotPlot.__get_figure
(lines 35 to 44). -/
def DotPlot.getFigureSize (dp : DotPlot) : Except PyError (ℚ × ℚ) :=
  match maxLabelLen dp.size_data.index with
  | none => .error .valueError
  | some m =>
    let textMax : ℤ := ⌈(m : ℚ) / 15⌉
    let mainplotHeight : ℚ := (dp.height_item : ℚ) * DotPlot.DEFAULT_ITEM_HEIGHT
    let mainplotWidth : ℚ :=
      ((textMax : ℚ) + (dp.width_item : ℚ)) * DotPlot.DEFAULT_ITEM_WIDTH
    .ok (mainplotWidth + DotPlot.DEFAULT_LEGENDS_WIDTH,
         max DotPlot.MIN_FIGURE_HEIGHT mainplotHeight)

/-- DotPlot.plot (lines 155 to 174).  Callers omitting arguments get the
Python defaults size_factor=15, vmin=0 (a number, not None), vmax=None.
Returns the render outcome (the scatter and the colour bar tick labels)
together with the object state after the call; the state is returned even when
the call raises, because the resized_size_data write of __get_coordinates
happens before the colour bar is drawn.  The figure is computed first
(line 168) and a failure there leaves the object untouched.  __draw_legend
(line 170) only draws: it changes no object state and is not modelled. -/
def DotPlot.plot (dp : DotPlot) (size_factor : ℚ) (vmin vmax : Option ℚ) :
    Except PyError (Scatter × ℚ × ℚ) × DotPlot :=
  match dp.getFigureSize with
  | .error e => (.error e, dp)
  | .ok _ =>
    let r := dp.drawDotplot size_factor
    match drawColorBar r.1 vmin vmax with
    | .error e => (.error e, r.2)
    | .ok ticks => (.ok (r.1, ticks), r.2)

/-- Character list for the item label a. -/
def itemA : Label := ['a']

/-- Character list for the item label b. -/
def itemB : Label := ['b']

/-- Character list for the group label x. -/
def groupX : Label := ['x']

/-- Character list for the group label y. -/
def groupY : Label := ['y']

/-- Colour value key without an underscore. -/
def keyC : Label := ['c']

/-- Sizes value key without an underscore. -/
def keyS : Label := ['s']

/-- Colour value key containing an underscore. -/
def keyCU : Label := ['c', '_', 'k']

/-- Sizes value key containing an underscore. -/
def keySU : Label := ['s', '_', 'k']

/-- Single observation: item a, group x, size 1, colour 2. -/
def rows1 : List TidyRow := [⟨itemA, groupX, 1, 2⟩]

/-- Four observations, one per (item, group) pair of {a, b} times {x, y}. -/
def rows4 : List TidyRow :=
  [⟨itemA, groupX, 1, 5⟩, ⟨itemA, groupY, 2, 6⟩,
   ⟨itemB, groupX, 3, 7⟩, ⟨itemB, groupY, 4, 8⟩]

/-- 2 by 2 size matrix [[1,2],[3,4]] with items [a, b] and groups [x, y]. -/
def df22 : DataFrame :=
  { index := [itemA, itemB], columns := [groupX, groupY], values := [[1, 2], [3, 4]] }

/-- 1 by 1 size frame. -/
def df11 : DataFrame :=
  { index := [itemA], columns := [groupX], values := [[5]] }

/-- 1 by 2 frame, of a shape different from df11. -/
def df12 : DataFrame :=
  { index := [itemA], columns := [groupX, groupY], values := [[5, 6]] }

/-- 1 by 1 colour frame whose single value is 2. -/
def df11c : DataFrame :=
  { index := [itemA], columns := [groupX], values := [[2]] }

/-- The DotPlot state of the end-to-end scenario: size matrix [[1,2],[3,4]],
no colour matrix.  This is the state the constructor would produce for
df_color=None were its None guard not broken. -/
def dp22 : DotPlot :=
  { size_data := df22, color_data := none, height_item := 2, width_item := 2,
    resized_size_data := none }

/-- DotPlot carrying a 1 by 1 colour matrix whose single value is 2. -/
def dp11 : DotPlot :=
  { size_data := df11, color_data := some df11c, height_item := 1, width_item := 1,
    resized_size_data := none }

/-! ## Helper lemmas on the string operations -/

theorem pySplit_ne_nil (sep : Char) : ∀ l : List Char, pySplit sep l ≠ []
  | [] => by simp [pySplit]
  | c :: cs => by
    simp only [pySplit]
    split
    · simp
    · split
      · simp
      · simp

theorem joinSep_cons_cons (sep : Char) (c : Char) (h : List Char)
    (t : List (List Char)) :
    joinSep sep ((c :: h) :: t) = c :: joinSep sep (h :: t) := by
  cases t with
  | nil => rfl
  | cons y t => simp [joinSep]

theorem pySplit_cons_sep (sep : Char) (cs : List Char) :
    pySplit sep (sep :: cs) = [] :: pySplit sep cs := by
  simp [pySplit]

theorem pySplit_cons_ne (sep c : Char) (cs : List Char) (hc : ¬ c = sep)
    (h : List Char) (t : List (List Char)) (hne : pySplit sep cs = h :: t) :
    pySplit sep (c :: cs) = (c :: h) :: t := by
  simp [pySplit, hc, hne]

theorem joinSep_pySplit (sep : Char) (l : List Char) :
    joinSep sep (pySplit sep l) = l := by
  induction l with
  | nil => rfl
  | cons c cs ih =>
    rcases hne : pySplit sep cs with _ | ⟨h, t⟩
    · exact absurd hne (pySplit_ne_nil sep cs)
    · rw [hne] at ih
      by_cases hc : c = sep
      · subst hc
        rw [pySplit_cons_sep, hne]
        show [] ++ c :: joinSep c (h :: t) = c :: cs
        rw [ih]
        rfl
      · rw [pySplit_cons_ne sep c cs hc h t hne]
        rw [joinSep_cons_cons, ih]

theorem joinSep_drop_one_pySplit (sep : Char) (l : List Char) :
    joinSep sep ((pySplit sep l).drop 1) = afterFirstSep sep l := by
  induction l with
  | nil => rfl
  | cons c cs ih =>
    rcases hne : pySplit sep cs with _ | ⟨h, t⟩
    · exact absurd hne (pySplit_ne_nil sep cs)
    · by_cases hc : c = sep
      · subst hc
        rw [pySplit_cons_sep]
        show joinSep c (pySplit c cs) = afterFirstSep c (c :: cs)
        rw [joinSep_pySplit]
        simp [afterFirstSep]
      · rw [pySplit_cons_ne sep c cs hc h t hne]
        rw [hne] at ih
        show joinSep sep t = afterFirstSep sep (c :: cs)
        rw [show afterFirstSep sep (c :: cs) = afterFirstSep sep cs from by
          simp [afterFirstSep, hc]]
        exact ih

theorem mangle_eq (key g : Label) : mangle key g = key ++ '_' :: g := rfl

theorem recoverLabel_eq (l : Label) : recoverLabel l = afterFirstSep '_' l :=
  joinSep_drop_one_pySplit '_' l

theorem afterFirstSep_append_absent (sep : Char) (g : List Char) :
    ∀ k : List Char, sep ∉ k → afterFirstSep sep (k ++ sep :: g) = g := by
  intro k
  induction k with
  | nil => intro _; simp [afterFirstSep]
  | cons c cs ih =>
    intro hk
    have hc : ¬ c = sep := fun h => hk (by rw [h]; exact List.mem_cons_self sep cs)
    rw [List.cons_append]
    rw [show afterFirstSep sep (c :: (cs ++ sep :: g)) =
        afterFirstSep sep (cs ++ sep :: g) from by simp [afterFirstSep, hc]]
    exact ih (fun h => hk (List.mem_cons_of_mem c h))

theorem afterFirstSep_append_mem (sep : Char) (m : List Char) :
    ∀ k : List Char, sep ∈ k → afterFirstSep sep (k ++ m) = afterFirstSep sep k ++ m := by
  intro k
  induction k with
  | nil => intro h; simp at h
  | cons c cs ih =>
    intro hk
    by_cases hc : c = sep
    · subst hc
      simp [afterFirstSep]
    · have hmem : sep ∈ cs := by
        rcases List.mem_cons.mp hk with h | h
        · exact absurd h.symm hc
        · exact h
      rw [List.cons_append]
      rw [show afterFirstSep sep (c :: (cs ++ m)) = afterFirstSep sep (cs ++ m) from by
        simp [afterFirstSep, hc]]
      rw [show afterFirstSep sep (c :: cs) = afterFirstSep sep cs from by
        simp [afterFirstSep, hc]]
      exact ih hmem

theorem recoverLabel_mangle_of_not_mem (key g : Label) (h : '_' ∉ key) :
    recoverLabel (mangle key g) = g := by
  rw [recoverLabel_eq, mangle_eq, afterFirstSep_append_absent '_' g key h]

theorem recoverLabel_mangle_of_mem (key g : Label) (h : '_' ∈ key) :
    recoverLabel (mangle key g) = afterFirstSep '_' key ++ '_' :: g := by
  rw [recoverLabel_eq, mangle_eq, afterFirstSep_append_mem '_' ('_' :: g) key h]

theorem recoverLabel_mangle_iff (key g : Label) :
    recoverLabel (mangle key g) = g ↔ '_' ∉ key := by
  constructor
  · intro he
    by_contra hmem
    rw [recoverLabel_mangle_of_mem key g hmem] at he
    have hlen := congrArg List.length he
    simp [List.length_append] at hlen
    omega
  · exact recoverLabel_mangle_of_not_mem key g

theorem pyStartsWith_append (k m : List Char) : pyStartsWith (k ++ m) k = true := by
  induction k with
  | nil => cases m <;> rfl
  | cons c cs ih => simp [pyStartsWith, ih]

theorem groupAxis_ne_nil (rows : List TidyRow) (h : rows ≠ []) :
    groupAxis rows ≠ [] := by
  intro hax
  rcases rows with _ | ⟨r, rest⟩
  · exact h rfl
  · have hmem : r.group ∈ ((r :: rest).map (·.group)).dedup := by
      rw [List.mem_dedup]
      exact List.mem_map_of_mem _ (List.mem_cons_self r rest)
    have hmem2 : r.group ∈ groupAxis (r :: rest) :=
      (List.perm_insertionSort (· ≤ ·) _).mem_iff.mpr hmem
    rw [hax] at hmem2
    exact List.not_mem_nil _ hmem2

theorem filter_self_block (key : Label) (G : List Label) :
    (G.map (fun g => (key, g))).filter
      (fun p => pyStartsWith (mangle p.1 p.2) key) = G.map (fun g => (key, g)) := by
  apply List.filter_eq_self.mpr
  intro p hp
  rcases List.mem_map.mp hp with ⟨g, _, rfl⟩
  show pyStartsWith (mangle key g) key = true
  rw [mangle_eq]
  exact pyStartsWith_append key ('_' :: g)

theorem corrupted_head_ne (key : Label) (hkey : '_' ∈ key) (g0 : Label)
    (gs rest : List Label) :
    recoverLabel (mangle key g0) :: rest ≠ g0 :: gs := by
  intro he
  injection he with h1 _
  rw [recoverLabel_mangle_iff] at h1
  exact h1 hkey

/-- C10: parse_from_tidy_data flattens the pivoted MultiIndex columns by
joining the value-key name and the group label with an underscore (line 88)
and recovers the group label by dropping everything up to the first
underscore (lines 92 to 93).  The recovered label equals the group label
exactly when the value key contains no underscore, and a sizes or colour key
containing an underscore corrupts the column labels of the corresponding
matrix, which then differ from the pivoted group axis. -/
theorem c10_underscore_column_corruption
    (key g : Label) (rows : List TidyRow) (color_key sizes_key : Label)
    (hrows : rows ≠ []) :
    (recoverLabel (mangle key g) = g ↔ '_' ∉ key) ∧
    ('_' ∈ color_key → (colorDf rows color_key sizes_key).columns ≠ groupAxis rows) ∧
    ('_' ∈ sizes_key → (sizesDf rows color_key sizes_key).columns ≠ groupAxis rows) := by
  refine ⟨recoverLabel_mangle_iff key g, ?_, ?_⟩
  · intro hck
    rcases hG : groupAxis rows with _ | ⟨g0, gs⟩
    · exact absurd hG (groupAxis_ne_nil rows hrows)
    · simp only [colorDf, subFrame, multiCols, List.filter_append]
      rw [filter_self_block color_key (groupAxis rows)]
      rw [hG]
      simp only [List.map_cons, List.map_append, List.cons_append, List.map_map]
      exact corrupted_head_ne color_key hck g0 gs _
  · intro hsk
    simp only [sizesDf, subFrame, multiCols, List.filter_append]
    rw [filter_self_block sizes_key (groupAxis rows)]
    rcases hfA : ((groupAxis rows).map (fun g => (color_key, g))).filter
        (fun p => pyStartsWith (mangle p.1 p.2) sizes_key) with _ | ⟨p, ps⟩
    · rcases hG : groupAxis rows with _ | ⟨g0, gs⟩
      · exact absurd hG (groupAxis_ne_nil rows hrows)
      · rw [hG] at hfA
        rw [hfA]
        simp only [List.map_cons, List.map_append, List.nil_append, List.map_nil,
          List.map_map]
        exact corrupted_head_ne sizes_key hsk g0 gs _
    · rw [hfA]
      intro he
      have hlen := congrArg List.length he
      simp only [List.length_append, List.length_map, List.length_cons] at hlen
      omega

/-- C10 witness: instantiation at a four-row table and keys containing an
underscore. -/
theorem c10_underscore_column_corruption_witness :
    (recoverLabel (mangle keyCU groupX) = groupX ↔ '_' ∉ keyCU) ∧
    ('_' ∈ keyCU → (colorDf rows4 keyCU keySU).columns ≠ groupAxis rows4) ∧
    ('_' ∈ keySU → (sizesDf rows4 keyCU keySU).columns ≠ groupAxis rows4) :=
  c10_underscore_column_corruption keyCU groupX rows4 keyCU keySU (by decide)

/-- C1: at the single-observation table (item a, group x, size 1, colour 2)
with keys c and s, parse_from_tidy_data builds a DotPlot whose size matrix
holds the colour value 2 and whose colour matrix holds the size value 1:
line 94 passes (color_df, sizes_df) into a constructor whose parameters are
(df_size, df_color), contradicting the constructor docstring.  The claimed
round trip of the size and colour mappings therefore fails. -/
theorem c1_parse_swaps_size_and_color :
    (parse_from_tidy_data rows1 keyC keyS).map
        (fun dp => (dp.size_data.values, dp.color_data.map (·.values)))
      = .ok ([[2]], some [[1]]) ∧
    cellValue rows1 TidyRow.size itemA groupX = 1 ∧
    cellValue rows1 TidyRow.color itemA groupX = 2 := by
  refine ⟨rfl, rfl, rfl⟩

/-- C2: direct construction crashes with AttributeError whenever df_color is
None, because line 28 uses the non-short-circuiting operator and evaluates
df_color.shape; the ValueError path for mismatching shapes and the success
path for matching shapes behave as the claim says. -/
theorem c2_init_crashes_on_none_color :
    DotPlot.init df11 none = .error .attributeError ∧
    DotPlot.init df11 (some df12) = .error .valueError ∧
    (DotPlot.init df11 (some df11c)).isOk = true := by
  refine ⟨rfl, rfl, rfl⟩

/-- C3 counterexample: a table with two items and two groups, one row per
pair.  The item axis of the parsed matrices is the full reversed item column
[b, b, a, a]: every item appears once per source row, not exactly once, even
though parsing succeeds. -/
theorem c3_item_axis_counterexample :
    (sizesDf rows4 keyC keyS).index = [itemB, itemB, itemA, itemA] ∧
    ¬ (sizesDf rows4 keyC keyS).index.Nodup ∧
    (parse_from_tidy_data rows4 keyC keyS).isOk = true := by
  refine ⟨rfl, by decide, by decide⟩

/-- C3 amended: for every long-form table accepted by parse_from_tidy_data
(one row per (item, group), no selected_item), the item axis of both result
matrices is the full item column of the source reversed, one entry per source
row (so an item occurs once per row carrying it, and the axis is the
first-seen order reversed only when each item has a single row); in
particular the first item of the source appears as the last row of the axis. -/
theorem c3_item_axis_amended (rows : List TidyRow) (color_key sizes_key : Label)
    (h : (rows.map (fun r => (r.item, r.group))).Nodup) :
    (sizesDf rows color_key sizes_key).index = (rows.map (·.item)).reverse ∧
    (colorDf rows color_key sizes_key).index = (rows.map (·.item)).reverse ∧
    (sizesDf rows color_key sizes_key).index.getLast? = (rows.map (·.item)).head? := by
  refine ⟨rfl, rfl, ?_⟩
  show ((rows.map (·.item)).reverse).getLast? = (rows.map (·.item)).head?
  exact List.getLast?_reverse _

/-- C3 witness: the amended statement instantiated at the four-row table. -/
theorem c3_item_axis_witness :
    (sizesDf rows4 keyC keyS).index = (rows4.map (·.item)).reverse ∧
    (colorDf rows4 keyC keyS).index = (rows4.map (·.item)).reverse ∧
    (sizesDf rows4 keyC keyS).index.getLast? = (rows4.map (·.item)).head? :=
  c3_item_axis_amended rows4 keyC keyS (by decide)

/-- C6 counterexample: for the four entries [1, 2, 3, 4] the code keeps
[1, 3, 4] (0-based positions 0, ceil(4/2) = 2, 3), not [1, 2, 4], which
first, ceil(n/2)-th (1-based, here the 2nd) and last would give. -/
theorem c6_legend_counterexample :
    legendSelect [1, 2, 3, 4] = [1, 3, 4] ∧
    legendSelect [1, 2, 3, 4] ≠ [1, 2, 4] := by
  refine ⟨by decide, by decide⟩

/-- C6 amended: for more than 3 entries, exactly 3 are retained: the first,
the entry at 0-based position ceil(n/2) (1-based, the (ceil(n/2)+1)-th), and
the last. -/
theorem c6_legend_reduction (l : List ℚ) (h : 3 < l.length) :
    (legendSelect l).length = 3 ∧
    legendSelect l
      = [l.getD 0 0, l.getD ((l.length + 1) / 2) 0, l.getD (l.length - 1) 0] ∧
    (legendSelect l).head? = l.head? ∧
    (legendSelect l).getLast? = l.getLast? := by
  have hsel : legendSelect l
      = [l.getD 0 0, l.getD ((l.length + 1) / 2) 0, l.getD (l.length - 1) 0] := by
    simp [legendSelect, h]
  refine ⟨by rw [hsel]; rfl, hsel, ?_, ?_⟩
  · rw [hsel]
    rcases l with _ | ⟨a, t⟩
    · simp at h
    · rfl
  · rw [hsel]
    have h1 : l.getLast? = l[l.length - 1]? := List.getLast?_eq_getElem? l
    have h2 : l.getD (l.length - 1) 0 = (l[l.length - 1]?).getD 0 :=
      List.getD_eq_getElem?_getD l (l.length - 1) 0
    rcases h3 : l[l.length - 1]? with _ | x
    · rw [List.getElem?_eq_none_iff] at h3
      omega
    · rw [h3] at h1 h2
      show some (l.getD (l.length - 1) 0) = l.getLast?
      rw [h1, h2]
      rfl

/-- C6 witness: the amended statement instantiated at five entries. -/
theorem c6_legend_reduction_witness :
    (legendSelect [5, 6, 7, 8, 9]).length = 3 ∧
    legendSelect [5, 6, 7, 8, 9]
      = [([5, 6, 7, 8, 9] : List ℚ).getD 0 0,
         ([5, 6, 7, 8, 9] : List ℚ).getD ((([5, 6, 7, 8, 9] : List ℚ).length + 1) / 2) 0,
         ([5, 6, 7, 8, 9] : List ℚ).getD (([5, 6, 7, 8, 9] : List ℚ).length - 1) 0] ∧
    (legendSelect [5, 6, 7, 8, 9]).head? = ([5, 6, 7, 8, 9] : List ℚ).head? ∧
    (legendSelect [5, 6, 7, 8, 9]).getLast? = ([5, 6, 7, 8, 9] : List ℚ).getLast? :=
  c6_legend_reduction [5, 6, 7, 8, 9] (by decide)

/-! ## Coordinate grid lemmas (C7) -/

theorem zip_replicate_snd (y : Nat) (xs : List Nat) :
    xs.zip (List.replicate xs.length y) = xs.map (fun x => (x, y)) := by
  induction xs with
  | nil => rfl
  | cons a t ih =>
    simp only [List.length_cons, List.replicate_succ, List.zip_cons_cons,
      List.map_cons, ih]

theorem zip_flatten_replicate (xs : List Nat) (ys : List Nat) :
    ((List.replicate ys.length xs).flatten).zip
        (ys.flatMap (fun y => List.replicate xs.length y)) =
      ys.flatMap (fun y => xs.map (fun x => (x, y))) := by
  induction ys with
  | nil => rfl
  | cons y t ih =>
    simp only [List.length_cons, List.replicate_succ, List.flatten_cons,
      List.flatMap_cons]
    rw [List.zip_append (by simp), zip_replicate_snd, ih]

theorem count_flatten_replicate (n : Nat) (l : List Nat) (a : Nat) :
    ((List.replicate n l).flatten).count a = n * l.count a := by
  induction n with
  | zero => simp
  | succ m ih =>
    simp only [List.replicate_succ, List.flatten_cons, List.count_append, ih,
      Nat.succ_mul]
    omega

theorem count_flatMap_replicate (n : Nat) (l : List Nat) (a : Nat) :
    (l.flatMap (fun y => List.replicate n y)).count a = n * l.count a := by
  induction l with
  | nil => simp
  | cons b t ih =>
    by_cases hba : b = a
    · simp [List.flatMap_cons, List.count_append, ih, List.count_replicate,
        List.count_cons, hba, Nat.mul_add]
      omega
    · simp [List.flatMap_cons, List.count_append, ih, List.count_replicate,
        List.count_cons, hba]

theorem flatten_replicate_perm_flatMap (w : Nat) (l : List Nat) :
    ((List.replicate w l).flatten).Perm (l.flatMap (fun y => List.replicate w y)) := by
  rw [List.perm_iff_count]
  intro a
  rw [count_flatten_replicate, count_flatMap_replicate]

theorem pairwise_flatMap_replicate (w : Nat) (s n : Nat) :
    List.Pairwise (· ≤ ·)
      ((List.range' s n).flatMap (fun y => List.replicate w y)) := by
  induction n generalizing s with
  | zero => simp
  | succ m ih =>
    rw [List.range'_succ, List.flatMap_cons, List.pairwise_append]
    refine ⟨?_, ih (s + 1), ?_⟩
    · rw [List.pairwise_replicate]
      right
      exact le_refl s
    · intro a ha b hb
      rw [List.mem_replicate] at ha
      rcases List.mem_flatMap.mp hb with ⟨y, hy, hb2⟩
      rw [List.mem_replicate] at hb2
      rw [List.mem_range'] at hy
      rcases hy with ⟨i, _, hyi⟩
      omega

theorem coordinatesY_eq (height width : Nat) :
    coordinatesY height width
      = (List.range' 1 height).flatMap (fun y => List.replicate width y) := by
  have hperm : (coordinatesY height width).Perm
      ((List.range' 1 height).flatMap (fun y => List.replicate width y)) :=
    (List.perm_insertionSort _ _).trans
      (flatten_replicate_perm_flatMap width (List.range' 1 height))
  exact List.eq_of_perm_of_sorted hperm (List.sorted_insertionSort _ _)
    (pairwise_flatMap_replicate width 1 height)

/-- C7: for a height by width matrix the zipped coordinate lists form exactly
height*width pairs: the full integer grid from (1,1) to (width, height) in
row-major order with x cycling fastest, with no duplicate and no omitted
pair. -/
theorem c7_coordinates_grid (height width : Nat) :
    ((coordinatesX height width).zip (coordinatesY height width)
        = (List.range' 1 height).flatMap
            (fun y => (List.range' 1 width).map (fun x => (x, y)))) ∧
    ((coordinatesX height width).zip (coordinatesY height width)).length
        = height * width ∧
    ((coordinatesX height width).zip (coordinatesY height width)).Nodup ∧
    (∀ p : Nat × Nat,
      p ∈ (coordinatesX height width).zip (coordinatesY height width) ↔
        (1 ≤ p.1 ∧ p.1 ≤ width ∧ 1 ≤ p.2 ∧ p.2 ≤ height)) := by
  have key := zip_flatten_replicate (List.range' 1 width) (List.range' 1 height)
  rw [List.length_range', List.length_range'] at key
  have hmain : (coordinatesX height width).zip (coordinatesY height width)
      = (List.range' 1 height).flatMap
          (fun y => (List.range' 1 width).map (fun x => (x, y))) := by
    rw [coordinatesY_eq]
    exact key
  refine ⟨hmain, ?_, ?_, ?_⟩
  · rw [hmain]
    simp only [List.length_flatMap, Function.comp_def, List.length_map,
      List.length_range', List.map_const', List.sum_replicate, smul_eq_mul]
  · rw [hmain]
    rw [List.nodup_flatMap]
    constructor
    · intro y _
      exact (List.nodup_range' 1 width).map
        (fun a b hab => by simpa using congrArg Prod.fst hab)
    · refine (List.pairwise_lt_range' 1 height).imp ?_
      intro a b hab p hp hq
      simp only [List.mem_map] at hp hq
      obtain ⟨x1, _, rfl⟩ := hp
      obtain ⟨x2, _, h2⟩ := hq
      have := congrArg Prod.snd h2
      simp only at this
      omega
  · intro p
    rw [hmain]
    simp only [List.mem_flatMap, List.mem_map, List.mem_range']
    constructor
    · rintro ⟨y, ⟨i, hi, rfl⟩, x, ⟨j, hj, rfl⟩, rfl⟩
      simp
      omega
    · rintro ⟨h1, h2, h3, h4⟩
      exact ⟨p.2, ⟨p.2 - 1, by omega, by omega⟩, p.1, ⟨p.1 - 1, by omega, by omega⟩, rfl⟩

/-- C8: for every DotPlot whose item labels have maximum length m, the figure
width is (ceil(m / 15) + width_item) * 0.35 plus the fixed legend width 0.5,
and the figure height is max(3, height_item * 0.3). -/
theorem c8_figure_size (dp : DotPlot) (m : Nat)
    (hm : (dp.size_data.index.map List.length).max? = some m) :
    dp.getFigureSize = .ok
      ((((⌈(m : ℚ) / 15⌉ : ℤ) : ℚ) + (dp.width_item : ℚ)) * (0.35 : ℚ) + (0.5 : ℚ),
       max 3 ((dp.height_item : ℚ) * (0.3 : ℚ))) := by
  simp only [DotPlot.getFigureSize, maxLabelLen, hm, DotPlot.DEFAULT_ITEM_WIDTH,
    DotPlot.DEFAULT_LEGENDS_WIDTH, DotPlot.DEFAULT_ITEM_HEIGHT,
    DotPlot.MIN_FIGURE_HEIGHT]

/-- C8 witness: the end-to-end fixture has labels of length 1, two groups and
two items, so the figure is ((ceil(1/15) + 2) * 0.35 + 0.5, max(3, 2 * 0.3)). -/
theorem c8_figure_size_witness :
    (dp22.size_data.index.map List.length).max? = some 1 ∧
    dp22.getFigureSize = .ok
      ((((⌈((1 : Nat) : ℚ) / 15⌉ : ℤ) : ℚ) + ((2 : Nat) : ℚ)) * (0.35 : ℚ) + (0.5 : ℚ),
       max 3 (((2 : Nat) : ℚ) * (0.3 : ℚ))) :=
  ⟨rfl, c8_figure_size dp22 1 rfl⟩

theorem drawDotplot_snd (dp : DotPlot) (size_factor : ℚ) :
    (dp.drawDotplot size_factor).2
      = { dp with resized_size_data := some (dp.size_data.applymapMul size_factor) } := by
  rcases hcd : dp.color_data with _ | c <;>
    simp [DotPlot.drawDotplot, DotPlot.getCoordinates, hcd]

theorem getFigureSize_error_index_nil (dp : DotPlot) (e : PyError)
    (hfig : dp.getFigureSize = .error e) : dp.size_data.index = [] := by
  rcases hml : maxLabelLen dp.size_data.index with _ | m
  · have h2 : dp.size_data.index.map List.length = [] :=
      List.max?_eq_none_iff.mp hml
    exact List.map_eq_nil_iff.mp h2
  · simp only [DotPlot.getFigureSize, hml] at hfig
    exact absurd hfig (by simp)

/-- C9: a render call never changes size_data, color_data, height_item or
width_item; the only field it writes is the derived resized_size_data, which
is overwritten with size_data scaled by the size factor — independently of
whatever the field held before, so repeated calls overwrite rather than
accumulate — whenever the call gets past the figure set-up (a nonempty item
axis). -/
theorem c9_plot_state (dp : DotPlot) (size_factor : ℚ) (vmin vmax : Option ℚ) :
    ((dp.plot size_factor vmin vmax).2.size_data = dp.size_data ∧
     (dp.plot size_factor vmin vmax).2.color_data = dp.color_data ∧
     (dp.plot size_factor vmin vmax).2.height_item = dp.height_item ∧
     (dp.plot size_factor vmin vmax).2.width_item = dp.width_item) ∧
    (dp.size_data.index ≠ [] →
      (dp.plot size_factor vmin vmax).2.resized_size_data
        = some (dp.size_data.applymapMul size_factor)) := by
  rcases hfig : dp.getFigureSize with e | v
  · have hnil := getFigureSize_error_index_nil dp e hfig
    constructor
    · simp only [DotPlot.plot, hfig]
      refine ⟨?_, ?_, ?_, ?_⟩ <;> trivial
    · intro hne
      exact absurd hnil hne
  · have hsnd := drawDotplot_snd dp size_factor
    rcases hcb : drawColorBar (dp.drawDotplot size_factor).1 vmin vmax with e2 | t
    · constructor
      · simp only [DotPlot.plot, hfig, hcb, hsnd]
        refine ⟨?_, ?_, ?_, ?_⟩ <;> trivial
      · intro _
        simp only [DotPlot.plot, hfig, hcb, hsnd]
    · constructor
      · simp only [DotPlot.plot, hfig, hcb, hsnd]
        refine ⟨?_, ?_, ?_, ?_⟩ <;> trivial
      · intro _
        simp only [DotPlot.plot, hfig, hcb, hsnd]

/-- C9 witness: instantiation at the 2 by 2 fixture with size factor 10. -/
theorem c9_plot_state_witness :
    ((dp22.plot 10 (some 0) none).2.size_data = dp22.size_data ∧
     (dp22.plot 10 (some 0) none).2.color_data = dp22.color_data ∧
     (dp22.plot 10 (some 0) none).2.height_item = dp22.height_item ∧
     (dp22.plot 10 (some 0) none).2.width_item = dp22.width_item) ∧
    (dp22.plot 10 (some 0) none).2.resized_size_data
      = some (dp22.size_data.applymapMul 10) :=
  ⟨(c9_plot_state dp22 10 (some 0) none).1,
   (c9_plot_state dp22 10 (some 0) none).2 (by decide)⟩

/-- C4: the end-to-end scenario (SizeMatrix [[1,2],[3,4]], items [a,b],
groups [x,y], ColorMatrix None, size_factor 10) cannot complete on this code:
construction with df_color=None raises AttributeError (line 28), and even on
a directly assembled object the render call raises in __draw_color_bar,
because the fixed-colour scatter has no value array while vmax defaults to
None (line 131).  The drawing arithmetic itself matches the claim: resized
sizes [[10,20],[30,40]], four points at (1,1),(2,1),(1,2),(2,2), drawn in the
constant colour. -/
theorem c4_end_to_end_scenario :
    DotPlot.init df22 none = .error .attributeError ∧
    (dp22.plot 10 (some 0) none).1 = .error .attributeError ∧
    (dp22.drawDotplot 10).1
      = { X := [1, 2, 1, 2], Y := [1, 1, 2, 2],
          sizes := [10, 20, 30, 40], color := .constRed } ∧
    ((dp22.drawDotplot 10).1.X.zip (dp22.drawDotplot 10).1.Y)
      = [(1, 1), (2, 1), (1, 2), (2, 2)] ∧
    (dp22.plot 10 (some 0) none).2.resized_size_data.map (·.values)
      = some [[10, 20], [30, 40]] := by
  have hml : maxLabelLen dp22.size_data.index = some 1 := rfl
  have hv : ∃ v, dp22.getFigureSize = .ok v := by
    simp only [DotPlot.getFigureSize, hml]
    exact ⟨_, rfl⟩
  obtain ⟨v, hv⟩ := hv
  have hcbar : drawColorBar (dp22.drawDotplot 10).1 (some 0) none
      = .error .attributeError := rfl
  have hplot : dp22.plot 10 (some 0) none
      = (.error .attributeError, (dp22.drawDotplot 10).2) := by
    simp only [DotPlot.plot, hv, hcbar]
  have hdraw : (dp22.drawDotplot 10).1
      = { X := [1, 2, 1, 2], Y := [1, 1, 2, 2],
          sizes := [(1 : ℚ) * 10, 2 * 10, 3 * 10, 4 * 10], color := .constRed } := rfl
  refine ⟨rfl, ?_, ?_, by decide, ?_⟩
  · rw [hplot]
  · rw [hdraw]
    norm_num
  · rw [hplot]
    show ((dp22.drawDotplot 10).2.resized_size_data).map (·.values)
      = some [[10, 20], [30, 40]]
    rw [show (dp22.drawDotplot 10).2.resized_size_data
      = some (df22.applymapMul 10) from rfl]
    show some [[(1 : ℚ) * 10, 2 * 10], [3 * 10, 4 * 10]] = some [[10, 20], [30, 40]]
    norm_num

theorem cbarVmax_spec (sct : Scatter) (arr : List ℚ) (vmax : Option ℚ)
    (ha : sct.getArray = some arr) (hne : arr ≠ []) :
    ∃ hi, cbarVmax sct vmax = .ok hi ∧
      (∀ w, vmax = some w → hi = w) ∧
      (vmax = none → ∃ m, arr.max? = some m ∧ hi = ((⌈m⌉ : ℤ) : ℚ)) := by
  rcases vmax with _ | w
  · rcases hm : arr.max? with _ | m
    · exact absurd (List.max?_eq_none_iff.mp hm) hne
    · refine ⟨((⌈m⌉ : ℤ) : ℚ), ?_, ?_, ?_⟩
      · simp only [cbarVmax, ha, hm]
      · intro w hw
        exact Option.noConfusion hw
      · intro _
        exact ⟨m, rfl, rfl⟩
  · refine ⟨w, rfl, ?_, ?_⟩
    · intro w2 hw2
      cases hw2
      rfl
    · intro hnone
      exact Option.noConfusion hnone

theorem cbarVmin_spec (sct : Scatter) (arr : List ℚ) (vmin : Option ℚ)
    (ha : sct.getArray = some arr) (hne : arr ≠ []) :
    ∃ lo, cbarVmin sct vmin = .ok lo ∧
      (∀ w, vmin = some w → lo = w) ∧
      (vmin = none → ∃ m, arr.min? = some m ∧ lo = ((⌊m⌋ : ℤ) : ℚ)) := by
  rcases vmin with _ | w
  · rcases hm : arr.min? with _ | m
    · exact absurd (List.min?_eq_none_iff.mp hm) hne
    · refine ⟨((⌊m⌋ : ℤ) : ℚ), ?_, ?_, ?_⟩
      · simp only [cbarVmin, ha, hm]
      · intro w hw
        exact Option.noConfusion hw
      · intro _
        exact ⟨m, rfl, rfl⟩
  · refine ⟨w, rfl, ?_, ?_⟩
    · intro w2 hw2
      cases hw2
      rfl
    · intro hnone
      exact Option.noConfusion hnone

/-- C5 amended: on a render that reaches the colour bar with a colour matrix
present, the displayed upper tick is the supplied vmax when one is given and
ceil of the maximum observed colour value when vmax is None (the default);
the displayed lower tick is the supplied vmin when one is given — and the
Python default for an omitted vmin is the number 0, not None — while floor of
the minimum observed colour value is displayed only when vmin is explicitly
passed as None. -/
theorem c5_colorbar_bounds (dp : DotPlot) (cdf : DataFrame) (size_factor : ℚ)
    (vmin vmax : Option ℚ) (hc : dp.color_data = some cdf)
    (hne : cdf.flatValues ≠ []) (hidx : dp.size_data.index ≠ []) :
    ∃ sct lo hi,
      (dp.plot size_factor vmin vmax).1 = .ok (sct, lo, hi) ∧
      sct.getArray = some cdf.flatValues ∧
      (∀ w, vmax = some w → hi = w) ∧
      (vmax = none → ∃ m, cdf.flatValues.max? = some m ∧ hi = ((⌈m⌉ : ℤ) : ℚ)) ∧
      (∀ w, vmin = some w → lo = w) ∧
      (vmin = none → ∃ m, cdf.flatValues.min? = some m ∧ lo = ((⌊m⌋ : ℤ) : ℚ)) := by
  rcases hfig : dp.getFigureSize with e | v
  · exact absurd (getFigureSize_error_index_nil dp e hfig) hidx
  · have hsct : (dp.drawDotplot size_factor).1.getArray = some cdf.flatValues := by
      simp [DotPlot.drawDotplot, DotPlot.getCoordinates, hc, Scatter.getArray]
    obtain ⟨hi, hhi, hhis, hhin⟩ := cbarVmax_spec _ _ vmax hsct hne
    obtain ⟨lo, hlo, hlos, hlon⟩ := cbarVmin_spec _ _ vmin hsct hne
    refine ⟨(dp.drawDotplot size_factor).1, lo, hi, ?_, hsct, hhis, hhin, hlos, hlon⟩
    simp only [DotPlot.plot, hfig, drawColorBar, hhi, hlo]

/-- C5 witness: with a present colour matrix and both bounds passed as None,
the displayed ticks are floor(min) and ceil(max). -/
theorem c5_colorbar_bounds_witness :
    ∃ sct lo hi,
      (dp11.plot 15 none none).1 = .ok (sct, lo, hi) ∧
      sct.getArray = some df11c.flatValues ∧
      (∀ w, (none : Option ℚ) = some w → hi = w) ∧
      ((none : Option ℚ) = none →
        ∃ m, df11c.flatValues.max? = some m ∧ hi = ((⌈m⌉ : ℤ) : ℚ)) ∧
      (∀ w, (none : Option ℚ) = some w → lo = w) ∧
      ((none : Option ℚ) = none →
        ∃ m, df11c.flatValues.min? = some m ∧ lo = ((⌊m⌋ : ℤ) : ℚ)) :=
  c5_colorbar_bounds dp11 df11c 15 none none rfl (by decide) (by decide)

/-- C5 counterexample: colour data [[2]].  Omitting vmin (the Python default
0) displays the lower tick 0 although floor of the minimum observed colour
value is 2; floor(min) appears only when vmin is passed as None explicitly.
vmax behaves as the claim says: omitted means None and ceil(max) = 2 shows. -/
theorem c5_colorbar_counterexample :
    (dp11.plot 15 (some 0) none).1.map (fun r => r.2) = .ok (0, 2) ∧
    (dp11.plot 15 none none).1.map (fun r => r.2) = .ok (2, 2) ∧
    [(2 : ℚ)].min? = some 2 ∧ ((⌊(2 : ℚ)⌋ : ℤ) : ℚ) = 2 ∧ (0 : ℚ) ≠ 2 := by
  have hml : maxLabelLen dp11.size_data.index = some 1 := rfl
  have hv : ∃ v, dp11.getFigureSize = .ok v := by
    simp only [DotPlot.getFigureSize, hml]
    exact ⟨_, rfl⟩
  obtain ⟨v, hv⟩ := hv
  have hsct : (dp11.drawDotplot 15).1.getArray = some [2] := rfl
  have hmax : ([(2 : ℚ)]).max? = some 2 := rfl
  have hmin : ([(2 : ℚ)]).min? = some 2 := rfl
  have hceil : (⌈(2 : ℚ)⌉ : ℤ) = 2 := by
    rw [Int.ceil_eq_iff]
    norm_num
  have hfloor : (⌊(2 : ℚ)⌋ : ℤ) = 2 := by decide
  have hcv1 : drawColorBar (dp11.drawDotplot 15).1 (some 0) none = .ok (0, 2) := by
    simp only [drawColorBar, cbarVmax, cbarVmin, hsct, hmax, hceil]
    norm_num
  have hcv2 : drawColorBar (dp11.drawDotplot 15).1 none none = .ok (2, 2) := by
    simp only [drawColorBar, cbarVmax, cbarVmin, hsct, hmax, hmin, hceil, hfloor]
    norm_num
  have hplot1 : (dp11.plot 15 (some 0) none).1
      = .ok ((dp11.drawDotplot 15).1, (0, 2)) := by
    simp only [DotPlot.plot, hv, hcv1]
  have hplot2 : (dp11.plot 15 none none).1
      = .ok ((dp11.drawDotplot 15).1, (2, 2)) := by
    simp only [DotPlot.plot, hv, hcv2]
  refine ⟨?_, ?_, rfl, by decide, by norm_num⟩
  · rw [hplot1]
    rfl
  · rw [hplot2]
    rfl
